import Mathlib

/-!
Verification of the entity canonicalization and resolution engine in
`src/mmworkbench/components/entity_resolver.py`.

The Python module is embedded shallowly:

* a Python dict holding a knowledge-base record is an association list
  `Doc := List (String × Val)` (dict keys are unique, lookup takes the
  first binding);
* Python exceptions are the error side of `Except PyErr`;
* calls to the `logging` module are collected in a `List LogEntry`;
* the Elasticsearch backend is external state: the set of indices with
  their documents (`EsState`), the per-document indexing outcome that
  `streaming_bulk` reports (an oracle `Doc → Bool`), and the response of
  `search` (an oracle passed to `predict`).  Relevance scores, floats in
  Elasticsearch, are modelled as rationals (any non-NaN floats compare
  the same way as the rationals they denote);
* the text normalizer `resource_loader.query_factory.normalize` and
  `Entity.is_system_entity` (both defined outside this module) are kept
  abstract as function parameters.
-/

/-- A Python value stored in a knowledge-base record: a string or a list
of strings (the shapes occurring in mapping files: ids, cnames,
whitelists and extra string fields). -/
inductive Val where
  | s (x : String)
  | l (xs : List String)
deriving DecidableEq, Repr

/-- A Python dict with string keys, as in a mapping record: an
association list whose keys are unique; lookup returns the first
binding. -/
abbrev Doc := List (String × Val)

/-- A Python exception, carrying the kind and its argument. -/
inductive PyErr where
  | keyError (k : String)
  | typeError (msg : String)
  | attributeError (name : String)
deriving DecidableEq, Repr

/-- Severity of a `logging` call. -/
inductive LogLevel where
  | debug
  | info
  | warning
  | error
deriving DecidableEq, Repr

/-- One record emitted through the module logger. -/
structure LogEntry where
  level : LogLevel
  msg : String
deriving DecidableEq, Repr

/-- `d[k]` as a total lookup: the value under the first binding of `k`. -/
def Doc.get? (d : Doc) (k : String) : Option Val :=
  (d.find? (fun p => p.1 == k)).map (fun p => p.2)

/-- `d[k]` as Python evaluates it: `KeyError` when the key is absent. -/
def Doc.getItem (d : Doc) (k : String) : Except PyErr Val :=
  match d.get? k with
  | some v => Except.ok v
  | none => Except.error (PyErr.keyError k)

/-- `d.pop(k, None)` on a copy of `d`: the dict without key `k`. -/
def Doc.eraseKey (d : Doc) (k : String) : Doc :=
  d.filter (fun p => !(p.1 == k))

/-- Lookup in a string-keyed association list (a Python dict). -/
def lookupStr {α : Type} (l : List (String × α)) (k : String) : Option α :=
  (l.find? (fun p => p.1 == k)).map (fun p => p.2)

/-- Interpolation of a value into a log format string (`%s`). -/
def valToStr : Val → String
  | Val.s x => x
  | Val.l xs => String.intercalate ", " xs

/-- The dict `self._mapping` that `process_mapping` would produce (its
keys `items` and `synonyms`): `items` maps a cname to the records
sharing that cname, `synonyms` maps a normalized alias to the cnames
claiming it. -/
structure Mapping where
  items : List (String × List Doc)
  synonyms : List (String × List String)
deriving DecidableEq, Repr

/-- The instance state of an `EntityResolver` object: the fields that
`__init__` assigns (`self.type`, `self._mapping`,
`self._is_system_entity`, `self._es_index_name`). -/
structure ResolverState where
  type : String
  mapping : Option Mapping
  isSystemEntity : Bool
  esIndexName : String
deriving DecidableEq, Repr

/-- An entity extracted from a query, as far as `predict` reads it:
`entity.text`, `entity.type` and the pre-resolved `entity.value`. -/
structure Entity where
  text : String
  type : String
  value : Val
deriving DecidableEq, Repr

/-- One Elasticsearch index: its documents keyed by `_id` (indexing a
document under an existing `_id` overwrites it). -/
structure EsIndex where
  docs : List (Val × Doc)
deriving DecidableEq, Repr

/-- The Elasticsearch cluster state: the indices by name. -/
structure EsState where
  indices : List (String × EsIndex)
deriving DecidableEq, Repr

/-- `es_client.indices.exists(index=name)`. -/
def EsState.indexExists (es : EsState) (name : String) : Bool :=
  (lookupStr es.indices name).isSome

/-- Store `doc` under `_id = idv`, overwriting a previous document with
the same `_id`. -/
def upsertDoc : List (Val × Doc) → Val → Doc → List (Val × Doc)
  | [], idv, doc => [(idv, doc)]
  | (k, v) :: rest, idv, doc =>
      if k = idv then (idv, doc) :: rest else (k, v) :: upsertDoc rest idv doc

/-- Apply a bulk-index action to the indices list: store `body` under
`_id = idv` in the index called `name`. -/
def upsertIndices (name : String) (idv : Val) (body : Doc) :
    List (String × EsIndex) → List (String × EsIndex)
  | [] => [(name, ⟨[(idv, body)]⟩)]
  | (n, idx) :: rest =>
      if n = name then (n, ⟨upsertDoc idx.docs idv body⟩) :: rest
      else (n, idx) :: upsertIndices name idv body rest

/-- One bulk-index action against index `name` (document `body` under
`_id = idv`), as executed by the backend when it reports success. -/
def EsState.upsert (es : EsState) (name : String) (idv : Val) (body : Doc) : EsState :=
  ⟨upsertIndices name idv body es.indices⟩

/-- The documents of the named index (empty when the index is absent). -/
def EsState.docsOf (es : EsState) (name : String) : List (Val × Doc) :=
  match lookupStr es.indices name with
  | some idx => idx.docs
  | none => []

/-- Names bound in the body of `class EntityResolver`: the data
attribute `DEFAULT_SYN_ES_MAPPING` and the methods.  The module-level
constants (`DOC_TYPE = "document"` and the synonym index name stem
`"synonym"`) are bound in the module, not in the class. -/
def EntityResolver.classAttrNames : List String :=
  ["DEFAULT_SYN_ES_MAPPING", "__init__", "_es_client", "_create_es_client",
   "create_index", "ingest_synonym", "fit", "predict", "predict_proba",
   "evaluate", "dump", "load"]

/-- `EntityResolver.<name>`: Python class attribute lookup, which raises
`AttributeError` when the class body binds no such name.  Only the
existence of the attribute is tracked; the value of
`DEFAULT_SYN_ES_MAPPING` (the analysis-settings dict) is opaque to the
claims checked here. -/
def EntityResolver.classGetattr (name : String) : Except PyErr Unit :=
  if name ∈ EntityResolver.classAttrNames then Except.ok ()
  else Except.error (PyErr.attributeError name)

/-- `EntityResolver.__init__(resource_loader, entity_type)`.  The
normalizer is taken from the resource loader by the caller of the other
methods; `isSystemEntity` stands for `Entity.is_system_entity`.  Line
216 reads `EntityResolver.ES_SYNONYM_INDEX_PREFIX`, a class attribute
lookup; on its (unreachable) success the index name would be that
value, then `"_"`, then the entity type. -/
def EntityResolver.init (isSystemEntity : String → Bool) (entityType : String) :
    Except PyErr ResolverState :=
  let isSys := isSystemEntity entityType
  match EntityResolver.classGetattr "ES_SYNONYM_INDEX_PREFIX" with
  | Except.error e => Except.error e
  | Except.ok _ =>
      Except.ok ⟨entityType, none, isSys, "synonym" ++ "_" ++ entityType⟩

/-- `EntityResolver.create_index(index_name, es_client)`.  Line 246
reads `EntityResolver.DEFAULT_SYNC_ES_MAPPING` (note the spelling: the
class defines `DEFAULT_SYN_ES_MAPPING`) before the existence check, so
the attribute lookup happens first; on its (unreachable) success the
index would be created when absent, otherwise an error is logged. -/
def EntityResolver.create_index (indexName : String) (es : EsState) :
    Except PyErr (EsState × List LogEntry) :=
  match EntityResolver.classGetattr "DEFAULT_SYNC_ES_MAPPING" with
  | Except.error e => Except.error e
  | Except.ok _ =>
      if !(es.indexExists indexName) then
        Except.ok (⟨(indexName, ⟨[]⟩) :: es.indices⟩,
          [⟨LogLevel.info, "Creating index " ++ indexName⟩])
      else
        Except.ok (es, [⟨LogLevel.error, "Index " ++ indexName ++ " already exists."⟩])

/-- One step of `_doc_generator`: `base = {'_id': doc['id']}` raises
`KeyError` when the record has no `id`; the generated bulk action
carries the id and the record (`base.update(doc)` adds every field of
the record next to `_id`). -/
def genDoc (doc : Doc) : Except PyErr (Val × Doc) :=
  match Doc.getItem doc "id" with
  | Except.error e => Except.error e
  | Except.ok v => Except.ok (v, doc)

/-- Realization of `_doc_generator` over one chunk: the records the
generator yields for the chunk, or the `KeyError` it raises at the
first record without an `id`. -/
def realizeChunk : List Doc → Except PyErr (List (Val × Doc))
  | [] => Except.ok []
  | d :: ds =>
      match genDoc d with
      | Except.error e => Except.error e
      | Except.ok p =>
          match realizeChunk ds with
          | Except.error e => Except.error e
          | Except.ok rest => Except.ok (p :: rest)

/-- Whether a log record was emitted at error level. -/
def isErrorLog (x : LogEntry) : Bool := x.level == LogLevel.error

/-- What `EntityResolver.ingest_synonym` leaves behind: the backend
state, the Python return value of the call (the function body has no
return statement, so it is `None`), the final value of the local
`count` (the aggregate it logs), and the log records. -/
structure IngestResult where
  es : EsState
  retval : Option Nat
  count : Nat
  logs : List LogEntry
deriving DecidableEq, Repr

/-- The body of the `for okay, result in streaming_bulk(...)` loop over
one realized chunk: a successful action indexes the document under its
`_id` and increments `count` with a debug record; a failed action only
logs an error record. -/
def ingestChunk (outcome : Doc → Bool) (indexName : String) :
    List (Val × Doc) → EsState → Nat → List LogEntry → EsState × Nat × List LogEntry
  | [], es, count, logs => (es, count, logs)
  | (idv, doc) :: rest, es, count, logs =>
      let docId := "/" ++ indexName ++ "/" ++ "document" ++ "/" ++ valToStr idv
      if outcome doc then
        ingestChunk outcome indexName rest
          (es.upsert indexName idv (("_id", idv) :: doc)) (count + 1)
          (logs ++ [⟨LogLevel.debug, "Loaded document: " ++ docId⟩])
      else
        ingestChunk outcome indexName rest es count
          (logs ++ [⟨LogLevel.error, "Failed to index document " ++ docId⟩])

/-- `streaming_bulk(es_client, _doc_generator(mapping), chunk_size=50)`:
the generator is consumed 50 records at a time, so a `KeyError` raised
by `_doc_generator` inside a chunk propagates before any document of
that chunk is sent, while documents of earlier chunks are already
indexed.  The recursion is driven by a fuel counter kept at or above
the number of remaining records (each chunk consumes at least one), so
the zero-fuel branch with records remaining is unreachable. -/
def ingestBulkFuel (outcome : Doc → Bool) (indexName : String) :
    Nat → List Doc → EsState → Nat → List LogEntry → Except PyErr IngestResult
  | _, [], es, count, logs =>
      Except.ok ⟨es, none, count,
        logs ++ [⟨LogLevel.info,
          "Loaded " ++ toString count ++ (if count = 1 then " document" else " documents")⟩]⟩
  | 0, _ :: _, es, count, logs => Except.ok ⟨es, none, count, logs⟩
  | fuel + 1, d :: ds, es, count, logs =>
      match realizeChunk ((d :: ds).take 50) with
      | Except.error e => Except.error e
      | Except.ok chunk =>
          match ingestChunk outcome indexName chunk es count logs with
          | (es2, count2, logs2) =>
              ingestBulkFuel outcome indexName fuel ((d :: ds).drop 50) es2 count2 logs2

/-- The bulk-ingestion loop of `ingest_synonym`, entered with enough
fuel for all records. -/
def ingestBulk (outcome : Doc → Bool) (indexName : String)
    (docs : List Doc) (es : EsState) (count : Nat) (logs : List LogEntry) :
    Except PyErr IngestResult :=
  ingestBulkFuel outcome indexName docs.length docs es count logs

/-- `EntityResolver.ingest_synonym(index_name, mapping, es_client)`:
creates the index when absent (via `create_index`), then streams the
mapping records through `streaming_bulk` and logs the aggregate count.
`outcome` is the per-document success flag the backend reports. -/
def EntityResolver.ingest_synonym (outcome : Doc → Bool) (indexName : String)
    (mapping : List Doc) (es : EsState) : Except PyErr IngestResult :=
  if es.indexExists indexName then
    ingestBulk outcome indexName mapping es 0 []
  else
    match EntityResolver.create_index indexName es with
    | Except.error e => Except.error e
    | Except.ok (es2, logs) =>
        match ingestBulk outcome indexName mapping es2 0 [] with
        | Except.error e => Except.error e
        | Except.ok r => Except.ok ⟨r.es, r.retval, r.count, logs ++ r.logs⟩

/-- What `EntityResolver.fit` leaves behind: the instance state, the
backend state and the log records (its Python return value is `None`). -/
structure FitResult where
  st : ResolverState
  es : EsState
  logs : List LogEntry
deriving DecidableEq, Repr

/-- `EntityResolver.fit(clean)`.  For a system entity the body is
skipped.  Otherwise the entity map is loaded (`entityMap` stands for
`self._resource_loader.get_entity_map(self.type)`), the line
`self._mapping = self.process_mapping(...)` is commented out in the
source (so `self._mapping` keeps its value), the index is created when
absent, and the mapping is ingested.  The `clean` argument is never
read by the body. -/
def EntityResolver.fit (outcome : Doc → Bool) (st : ResolverState)
    (entityMap : List Doc) (es : EsState) (clean : Bool) :
    Except PyErr FitResult :=
  if st.isSystemEntity then Except.ok ⟨st, es, []⟩
  else
    let importLog : LogEntry :=
      ⟨LogLevel.info, "Importing synonym data to ES index " ++ st.esIndexName⟩
    if es.indexExists st.esIndexName then
      match EntityResolver.ingest_synonym outcome st.esIndexName entityMap es with
      | Except.error e => Except.error e
      | Except.ok r => Except.ok ⟨st, r.es, [importLog] ++ r.logs⟩
    else
      match EntityResolver.create_index st.esIndexName es with
      | Except.error e => Except.error e
      | Except.ok (es2, logs) =>
          match EntityResolver.ingest_synonym outcome st.esIndexName entityMap es2 with
          | Except.error e => Except.error e
          | Except.ok r => Except.ok ⟨st, r.es, logs ++ [importLog] ++ r.logs⟩

/-- A clause of the Elasticsearch query body built by `predict`: a
`match` clause on a document field (with its boost weight, 1 when the
source writes none, the Elasticsearch default), or a `bool`/`should`
disjunction of clauses. -/
inductive EsQuery where
  | matchClause (field : String) (query : String) (boost : Nat)
  | boolShould (clauses : List EsQuery)

/-- The aggregation part of the query body: a `sampler` of shard size
20 over a `terms` aggregation on `cname.raw` keeping 100 buckets, each
with a `top_hits` sub-aggregation of size 1. -/
structure AggsSpec where
  samplerShardSize : Nat
  termsField : String
  termsSize : Nat
  topHitsSize : Nat
deriving DecidableEq, Repr

/-- The search body `full_text_query`: the boolean query, `size` and
the aggregations. -/
structure EsSearchBody where
  query : EsQuery
  size : Nat
  aggs : AggsSpec

/-- The `full_text_query` dict that `predict` builds from the
normalized mention text (lines 394-474 of the source). -/
def fullTextQuery (normed : String) : EsSearchBody :=
  ⟨EsQuery.boolShould
      [EsQuery.boolShould
          [EsQuery.matchClause "whitelist.normalized_keyword" normed 10,
           EsQuery.matchClause "cname.normalized_keyword" normed 10],
       EsQuery.matchClause "whitelist" normed 1,
       EsQuery.matchClause "cname" normed 1,
       EsQuery.matchClause "cname.char_ngram" normed 1,
       EsQuery.matchClause "whitelist.char_ngram" normed 1],
   0,
   ⟨20, "cname.raw", 100, 1⟩⟩

mutual

/-- The `match` clauses of a query in source order, as
(field, query text, boost) triples. -/
def EsQuery.clauses : EsQuery → List (String × String × Nat)
  | EsQuery.matchClause f q b => [(f, q, b)]
  | EsQuery.boolShould cs => clausesOfList cs

/-- The `match` clauses of a clause list, in order. -/
def clausesOfList : List EsQuery → List (String × String × Nat)
  | [] => []
  | c :: cs => c.clauses ++ clausesOfList cs

end

/-- The boost of the first `match` clause on the given field (0 when no
clause uses the field). -/
def EsSearchBody.boostOfField (body : EsSearchBody) (field : String) : Nat :=
  match (body.query.clauses.find? (fun c => c.1 == field)) with
  | some c => c.2.2
  | none => 0

/-- Whether the top level of the query is a `bool`/`should`
disjunction. -/
def EsQuery.isDisjunction : EsQuery → Bool
  | EsQuery.boolShould _ => true
  | EsQuery.matchClause _ _ _ => false

/-- One bucket of the `top_cnames` terms aggregation in the search
response: the bucket key (a cname), the `max_score` of its `top_hits`
sub-aggregation, and the total hits of the bucket. -/
structure Bucket where
  key : String
  maxScore : Rat
  total : Nat
deriving DecidableEq, Repr

/-- One element of the list `predict` returns on the fuzzy path: the
dict with keys `cname`, `max_score` and `num_hits`. -/
structure FuzzyResult where
  cname : String
  maxScore : Rat
  numHits : Nat
deriving DecidableEq, Repr

/-- The descending comparison `predict` sorts the fuzzy results by
(`key=lambda x: x['max_score'], reverse=True`). -/
def byScoreDesc : FuzzyResult → FuzzyResult → Prop :=
  fun a b => b.maxScore ≤ a.maxScore

instance : DecidableRel byScoreDesc :=
  fun a b => inferInstanceAs (Decidable (b.maxScore ≤ a.maxScore))

instance : IsTotal FuzzyResult byScoreDesc :=
  ⟨fun a b => le_total b.maxScore a.maxScore⟩

instance : IsTrans FuzzyResult byScoreDesc :=
  ⟨fun _ _ _ hab hbc => le_trans hbc hab⟩

/-- Lines 478-483 of the source: build one result dict per bucket, sort
by `max_score` with `reverse=True` (Python sorting is stable, so this
is the stable sort under the flipped comparison), and keep the first
ten. -/
def rankBuckets (buckets : List Bucket) : List FuzzyResult :=
  (List.insertionSort byScoreDesc
      (buckets.map (fun b => FuzzyResult.mk b.key b.maxScore b.total))).take 10

/-- The value `predict` returns: `entity.value` for a system entity,
`entity.text` on a resolution miss, the item projections on an exact
match, or the ranked fuzzy candidates. -/
inductive PredictResult where
  | systemValue (v : Val)
  | unresolvedText (t : String)
  | exactItems (items : List Doc)
  | ranked (rs : List FuzzyResult)
deriving DecidableEq, Repr

/-- `self._mapping['items'][cname]`: this access sits outside the
`try` block, so an absent cname raises `KeyError` to the caller. -/
def itemsLookup (m : Mapping) (cname : String) : Except PyErr (List Doc) :=
  match lookupStr m.items cname with
  | some its => Except.ok its
  | none => Except.error (PyErr.keyError cname)

/-- The nested loops of the exact path (lines 385-391): for each cname
in discovery order, append a copy of every item under
`self._mapping['items'][cname]` with its `whitelist` attribute
popped. -/
def collectValues (m : Mapping) : List String → Except PyErr (List Doc)
  | [] => Except.ok []
  | c :: cs =>
      match itemsLookup m c with
      | Except.error e => Except.error e
      | Except.ok its =>
          match collectValues m cs with
          | Except.error e => Except.error e
          | Except.ok rest => Except.ok (its.map (fun d => d.eraseKey "whitelist") ++ rest)

/-- `EntityResolver.predict(entity, exact_match_only)`.  `norm` is the
normalizer `self._normalizer`; `search` stands for
`self._es_client.search` on `self._es_index_name`, returning the
buckets of the `top_cnames` aggregation (or a backend error).  On the
exact path, `self._mapping['synonyms'][normed]` is guarded by
`except KeyError` only: when `self._mapping` is `None` the
subscription raises `TypeError`, which propagates. -/
def EntityResolver.predict (norm : String → String)
    (search : String → EsSearchBody → Except PyErr (List Bucket))
    (st : ResolverState) (e : Entity) (exactMatchOnly : Bool) :
    Except PyErr (PredictResult × List LogEntry) :=
  if st.isSystemEntity then Except.ok (PredictResult.systemValue e.value, [])
  else
    let normed := norm e.text
    if exactMatchOnly then
      match st.mapping with
      | none => Except.error (PyErr.typeError "NoneType object is not subscriptable")
      | some m =>
          match lookupStr m.synonyms normed with
          | none =>
              Except.ok (PredictResult.unresolvedText e.text,
                [⟨LogLevel.warning,
                  "Failed to resolve entity " ++ e.text ++ " for type " ++ e.type⟩])
          | some cnames =>
              let logs : List LogEntry :=
                if cnames.length > 1 then
                  [⟨LogLevel.info,
                    "Multiple possible canonical names for " ++ e.text ++
                      " entity for type " ++ e.type⟩]
                else []
              match collectValues m cnames with
              | Except.error err => Except.error err
              | Except.ok values => Except.ok (PredictResult.exactItems values, logs)
    else
      match search st.esIndexName (fullTextQuery normed) with
      | Except.error err => Except.error err
      | Except.ok buckets => Except.ok (PredictResult.ranked (rankBuckets buckets), [])

/-! Concrete instantiations of the external dependencies and sample
inputs, used to evaluate the embedded operations. -/

/-- A sample normalizer standing in for
`resource_loader.query_factory.normalize` (an external pure function):
lowercases the mention strings appearing in the sample inputs below. -/
def sampleNorm (s : String) : String :=
  if s = "NYC" then "nyc"
  else if s = "SEA" then "sea"
  else if s = "Seattle" then "seattle"
  else s

/-- A backend search oracle for calls that never reach the fuzzy path. -/
def noSearch : String → EsSearchBody → Except PyErr (List Bucket) :=
  fun _ _ => Except.ok []

/-- A per-document indexing outcome where the backend accepts every
document. -/
def allOk : Doc → Bool := fun _ => true

/-- Resolver state for entity type `city`, as `__init__` would assign
the instance fields (in particular `self._mapping = None`). -/
def stCity : ResolverState := ⟨"city", none, false, "synonym_city"⟩

/-- Backend state where the index `synonym_city` already exists and
holds one document from before the call (a stale synonym). -/
def esCity : EsState :=
  ⟨[("synonym_city", ⟨[(Val.s "stale", [("cname", Val.s "Old Town")])]⟩)]⟩

/-- A one-record entity mapping for `city`. -/
def cityMap : List Doc :=
  [[("id", Val.s "1"), ("cname", Val.s "Seattle"), ("whitelist", Val.l ["SEA"])]]

/-- A mapping whose two records carry the same `id`. -/
def dupIdMap : List Doc :=
  [[("id", Val.s "1"), ("cname", Val.s "Alpha")],
   [("id", Val.s "1"), ("cname", Val.s "Beta")]]

/-- Resolver state for entity type `store`. -/
def stStore : ResolverState := ⟨"store", none, false, "synonym_store"⟩

/-- Backend state where the (empty) index `synonym_store` exists. -/
def esStore : EsState := ⟨[("synonym_store", ⟨[]⟩)]⟩

/-- A one-record entity mapping for `store`. -/
def storeMap : List Doc :=
  [[("id", Val.s "1"), ("cname", Val.s "Seattle"), ("whitelist", Val.l ["SEA"])]]

/-- The in-memory tables `process_mapping` would build from the two
records `{id: 1, cname: NYC}` and
`{id: 2, cname: New York City, whitelist: [NYC]}`: the normalized alias
`nyc` is claimed by both cnames. -/
def mNyc : Mapping :=
  ⟨[("NYC", [[("id", Val.s "1"), ("cname", Val.s "NYC")]]),
    ("New York City",
      [[("id", Val.s "2"), ("cname", Val.s "New York City"),
        ("whitelist", Val.l ["NYC"])]])],
   [("nyc", ["NYC", "New York City"])]⟩

/-- Resolver state for `city` whose `_mapping` holds `mNyc`. -/
def stNyc : ResolverState := ⟨"city", some mNyc, false, "synonym_city"⟩

/-- The items under each cname of `mNyc`, as a function. -/
def itsNyc : String → List Doc :=
  fun c =>
    if c = "NYC" then [[("id", Val.s "1"), ("cname", Val.s "NYC")]]
    else if c = "New York City" then
      [[("id", Val.s "2"), ("cname", Val.s "New York City"),
        ("whitelist", Val.l ["NYC"])]]
    else []

/-- Two records with distinct ids. -/
def twoDocs : List Doc :=
  [[("id", Val.s "10"), ("cname", Val.s "Pike Place")],
   [("id", Val.s "11"), ("cname", Val.s "Pine Street")]]

/-- A per-document outcome where the backend rejects the record with id
`11` and accepts the rest. -/
def failOn11 : Doc → Bool :=
  fun d => !(d.get? "id" == some (Val.s "11"))

/-- The id of a record, when present (used to state what the realized
generator output looks like). -/
def idOf (d : Doc) : Val := (d.get? "id").getD (Val.s "")

/-- Twelve aggregation buckets with pairwise distinct keys, more than
the ten the fuzzy path may return. -/
def twelveBuckets : List Bucket :=
  [⟨"c01", 3, 1⟩, ⟨"c02", 9, 2⟩, ⟨"c03", 5, 1⟩, ⟨"c04", 12, 3⟩,
   ⟨"c05", 1, 1⟩, ⟨"c06", 8, 2⟩, ⟨"c07", 7, 1⟩, ⟨"c08", 2, 5⟩,
   ⟨"c09", 11, 1⟩, ⟨"c10", 4, 2⟩, ⟨"c11", 6, 1⟩, ⟨"c12", 10, 4⟩]


/-- C1.  The claim says a mention whose normalized form has no synonym
entry makes the exact-match path return the original text, log a miss,
and never raise.  In the code, `fit` leaves `self._mapping = None` (the
assignment is commented out), so the exact-match path of `predict`
subscripts `None`, raising a `TypeError` that the `except KeyError`
guard does not catch: the call raises to the caller instead of soft
failing.  The theorem evaluates the code at the failing input: after
`fit`, the instance state is unchanged (its `_mapping` still `None`),
and the exact-match `predict` on the unresolvable mention `portland`
raises. -/
theorem c1_exact_path_raises_after_fit :
    (EntityResolver.fit allOk stCity cityMap esCity false).map (fun r => r.st)
        = Except.ok stCity ∧
    EntityResolver.predict sampleNorm noSearch stCity ⟨"portland", "city", Val.s "x"⟩ true
        = Except.error (PyErr.typeError "NoneType object is not subscriptable") := by
  exact ⟨rfl, rfl⟩

/-- C2.  The claim says `fit(clean=True)` deletes and recreates the
index before reindexing, so no document from before the call survives.
In the code the `clean` argument is never read: `fit` with
`clean=True` behaves exactly like `fit` with `clean=False`, and a
stale document present in the index before the call is still there
after it. -/
theorem c2_clean_fit_keeps_stale_documents :
    EntityResolver.fit allOk stCity cityMap esCity true
        = EntityResolver.fit allOk stCity cityMap esCity false ∧
    (EntityResolver.fit allOk stCity cityMap esCity true).map
        (fun r => (r.es.docsOf "synonym_city").find? (fun p => p.1 == Val.s "stale"))
        = Except.ok (some (Val.s "stale", [("cname", Val.s "Old Town")])) := by
  exact ⟨rfl, rfl⟩

/-- C3.  The claim says a mapping with a duplicated `id` makes `fit`
fail with a duplicate-identifier error before any backend write.  In
the code the duplicate check lives only in the commented-out
`process_mapping`, which `fit` never calls: `fit` on a mapping whose
two records share id `1` succeeds, reports two loaded documents, and
the writes reach the backend (the second record overwrites the first
under `_id = 1`). -/
theorem c3_duplicate_ids_are_ingested_without_error :
    (EntityResolver.fit allOk stCity dupIdMap esCity false).map
        (fun r => ((r.es.docsOf "synonym_city").find? (fun p => p.1 == Val.s "1"),
                   r.logs.getLast?))
      = Except.ok
          (some (Val.s "1", [("_id", Val.s "1"), ("id", Val.s "1"), ("cname", Val.s "Beta")]),
           some ⟨LogLevel.info, "Loaded 2 documents"⟩) := by
  exact rfl

/-- C5.  The claim says every item ingested via `fit` is returned by
the exact-match path of `predict` on its own cname, with the whitelist
stripped.  In the code the round trip is broken at the first step:
`fit` ingests the record into the backend but never populates
`self._mapping` (the assignment is commented out), so the exact-match
`predict` on the item's own cname `Seattle` raises a `TypeError`
instead of returning the item. -/
theorem c5_round_trip_broken_after_fit :
    (EntityResolver.fit allOk stStore storeMap esStore false).map (fun r => r.st)
        = Except.ok stStore ∧
    EntityResolver.predict sampleNorm noSearch stStore ⟨"Seattle", "store", Val.s "x"⟩ true
        = Except.error (PyErr.typeError "NoneType object is not subscriptable") := by
  exact ⟨rfl, rfl⟩

/-- C9.  The claim says a record without the optional `id` is accepted
by `fit`/ingestion.  In the code `_doc_generator` unconditionally
evaluates `doc['id']`, so `fit` on a mapping whose only record has just
a `cname` raises `KeyError` instead of ingesting it. -/
theorem c9_record_without_id_raises_keyerror :
    EntityResolver.fit allOk stStore [[("cname", Val.s "Pine Street")]] esStore false
      = Except.error (PyErr.keyError "id") := by
  exact rfl

/-- C10.  The claim says constructing an `EntityResolver` always
succeeds.  In the code `__init__` reads
`EntityResolver.ES_SYNONYM_INDEX_PREFIX`, but that name is a
module-level constant, not a class attribute, so every construction
raises `AttributeError` regardless of the entity type. -/
theorem c10_init_always_raises_attribute_error
    (isSystemEntity : String → Bool) (entityType : String) :
    EntityResolver.init isSystemEntity entityType
      = Except.error (PyErr.attributeError "ES_SYNONYM_INDEX_PREFIX") := by
  exact rfl

/-- C8 counterexample.  The claim says the fuzzy query has three boost
tiers, with full-text match boosted above partial/n-gram match.  In
the query the code builds, the boosts are 10, 10, 1, 1, 1, 1: the
full-text clauses (`whitelist`, `cname`) and the n-gram clauses carry
the same default boost 1, so the full-text boost is not strictly above
the n-gram boost and there are only two tiers. -/
theorem c8_counterexample_two_boost_tiers :
    ((fullTextQuery "nyc").query.clauses.map (fun c => c.2.2)) = [10, 10, 1, 1, 1, 1] ∧
    ¬ ((fullTextQuery "nyc").boostOfField "whitelist"
        > (fullTextQuery "nyc").boostOfField "whitelist.char_ngram") := by
  exact ⟨rfl, by decide⟩

/-- C8 amended.  The fuzzy-path query built by `predict` is a
disjunction of match clauses with two tiers of boost weights:
exact-normalized match on the alias (`whitelist`) or canonical-name
fields carries boost 10, while full-text and partial/n-gram match
clauses carry the default boost 1, so an exact-normalized match clause
outranks a partial-match clause. -/
theorem c8_amended_two_tier_boosts (normed : String) :
    (fullTextQuery normed).query.isDisjunction = true ∧
    (fullTextQuery normed).query.clauses =
      [("whitelist.normalized_keyword", normed, 10),
       ("cname.normalized_keyword", normed, 10),
       ("whitelist", normed, 1),
       ("cname", normed, 1),
       ("cname.char_ngram", normed, 1),
       ("whitelist.char_ngram", normed, 1)] ∧
    (fullTextQuery normed).boostOfField "whitelist.normalized_keyword"
      > (fullTextQuery normed).boostOfField "whitelist.char_ngram" := by
  refine ⟨rfl, rfl, ?_⟩
  show (10 : Nat) > 1
  decide

/-- When every cname of the list resolves in the item table, the value
collection of the exact path succeeds and flattens the stripped items
of all cnames in order. -/
theorem collectValues_ok (m : Mapping) (its : String → List Doc) :
    ∀ (cnames : List String),
      (∀ c ∈ cnames, lookupStr m.items c = some (its c)) →
      collectValues m cnames =
        Except.ok (cnames.flatMap (fun c => (its c).map (fun d => d.eraseKey "whitelist")))
  | [], _ => rfl
  | c :: cs, h => by
      have hc := h c (List.mem_cons_self c cs)
      have ih := collectValues_ok m its cs (fun x hx => h x (List.mem_cons_of_mem c hx))
      simp [collectValues, itemsLookup, hc, ih]

/-- C4.  For a mapping state in which one normalized alias is claimed
by two or more distinct cnames, the exact-match path of `predict` on
that alias returns the candidates of all matching cnames flattened
into one list (each with its whitelist attribute stripped), and logs
the ambiguity at info level instead of raising or dropping
candidates. -/
theorem c4_ambiguous_alias_returns_all_candidates
    (norm : String → String) (search : String → EsSearchBody → Except PyErr (List Bucket))
    (st : ResolverState) (e : Entity) (m : Mapping)
    (cnames : List String) (its : String → List Doc)
    (hsys : st.isSystemEntity = false)
    (hmap : st.mapping = some m)
    (hsyn : lookupStr m.synonyms (norm e.text) = some cnames)
    (hnodup : cnames.Nodup)
    (hlen : 2 ≤ cnames.length)
    (hits : ∀ c ∈ cnames, lookupStr m.items c = some (its c)) :
    EntityResolver.predict norm search st e true =
      Except.ok (PredictResult.exactItems
        (cnames.flatMap (fun c => (its c).map (fun d => d.eraseKey "whitelist"))),
        [⟨LogLevel.info, "Multiple possible canonical names for " ++ e.text ++
            " entity for type " ++ e.type⟩]) := by
  have h1 : cnames.length > 1 := hlen
  simp only [EntityResolver.predict, hsys, Bool.false_eq_true, if_false, if_true, hmap,
    hsyn, collectValues_ok m its cnames hits, h1, if_pos h1]

/-- C4 witness: the ambiguous alias `NYC` (normalized `nyc`), claimed
by the cnames `NYC` and `New York City` in `mNyc`, resolves to the
items of both cnames, flattened, with whitelists stripped. -/
theorem c4_witness :
    EntityResolver.predict sampleNorm noSearch stNyc ⟨"NYC", "city", Val.s "x"⟩ true =
      Except.ok (PredictResult.exactItems
        [[("id", Val.s "1"), ("cname", Val.s "NYC")],
         [("id", Val.s "2"), ("cname", Val.s "New York City")]],
        [⟨LogLevel.info,
          "Multiple possible canonical names for NYC entity for type city"⟩]) :=
  (c4_ambiguous_alias_returns_all_candidates sampleNorm noSearch stNyc
      ⟨"NYC", "city", Val.s "x"⟩ mNyc ["NYC", "New York City"] itsNyc
      rfl rfl rfl (by decide) (by decide) (by decide)).trans (by rfl)

/-- When every record of a chunk carries an `id`, the generator yields
the whole chunk, pairing each record with its id. -/
theorem realizeChunk_ok : ∀ (docs : List Doc),
    (∀ d ∈ docs, (Doc.get? d "id").isSome) →
    realizeChunk docs = Except.ok (docs.map (fun d => (idOf d, d)))
  | [], _ => rfl
  | d :: ds, h => by
      obtain ⟨v, hv⟩ := Option.isSome_iff_exists.mp (h d (List.mem_cons_self d ds))
      have ih := realizeChunk_ok ds (fun x hx => h x (List.mem_cons_of_mem d hx))
      simp [realizeChunk, genDoc, Doc.getItem, hv, ih, idOf]

/-- The bulk loop body counts exactly the documents whose indexing the
backend reports as successful. -/
theorem ingestChunk_count (outcome : Doc → Bool) (indexName : String)
    (chunk : List (Val × Doc)) :
    ∀ (es : EsState) (count : Nat) (logs : List LogEntry),
      (ingestChunk outcome indexName chunk es count logs).2.1
        = count + (chunk.filter (fun p => outcome p.2)).length := by
  induction chunk with
  | nil => intro es count logs; simp [ingestChunk]
  | cons p rest ih =>
      intro es count logs
      obtain ⟨idv, doc⟩ := p
      by_cases h : outcome doc <;> simp [ingestChunk, h, ih] <;> omega

/-- The bulk loop body emits exactly one error-level log record per
document whose indexing the backend reports as failed. -/
theorem ingestChunk_errlogs (outcome : Doc → Bool) (indexName : String)
    (chunk : List (Val × Doc)) :
    ∀ (es : EsState) (count : Nat) (logs : List LogEntry),
      ((ingestChunk outcome indexName chunk es count logs).2.2.filter isErrorLog).length
        = (logs.filter isErrorLog).length + (chunk.filter (fun p => !outcome p.2)).length := by
  induction chunk with
  | nil => intro es count logs; simp [ingestChunk]
  | cons p rest ih =>
      intro es count logs
      obtain ⟨idv, doc⟩ := p
      by_cases h : outcome doc <;>
        simp [ingestChunk, h, ih, List.filter_append, isErrorLog] <;> omega

/-- Filtering the paired chunk on the record component matches
filtering the records. -/
theorem filter_snd_map_length (p : Doc → Bool) (l : List Doc) :
    (List.filter (fun q : Val × Doc => p q.2) (l.map (fun x => (idOf x, x)))).length
      = (l.filter p).length := by
  induction l with
  | nil => rfl
  | cons a l ih => by_cases h : p a <;> simp [h, ih]

/-- The chunked bulk loop, run with enough fuel on records that all
carry ids: it never raises, returns `None`, counts exactly the
successful documents across all chunks, and logs one error per failed
document while continuing with the rest. -/
theorem ingestBulkFuel_spec (outcome : Doc → Bool) (indexName : String) :
    ∀ (fuel : Nat) (docs : List Doc) (es : EsState) (count : Nat) (logs : List LogEntry),
      docs.length ≤ fuel →
      (∀ d ∈ docs, (Doc.get? d "id").isSome) →
      ∃ r, ingestBulkFuel outcome indexName fuel docs es count logs = Except.ok r ∧
        r.retval = none ∧
        r.count = count + (docs.filter outcome).length ∧
        (r.logs.filter isErrorLog).length
          = (logs.filter isErrorLog).length + (docs.filter (fun d => !outcome d)).length := by
  intro fuel
  induction fuel with
  | zero =>
      intro docs es count logs hf hids
      have hnil : docs = [] := List.length_eq_zero.mp (Nat.le_zero.mp hf)
      subst hnil
      exact ⟨_, rfl, rfl, by simp, by simp [List.filter_append, isErrorLog]⟩
  | succ fuel ih =>
      intro docs es count logs hf hids
      match docs with
      | [] => exact ⟨_, rfl, rfl, by simp, by simp [List.filter_append, isErrorLog]⟩
      | d :: ds =>
          have hchunk := realizeChunk_ok ((d :: ds).take 50)
            (fun x hx => hids x (List.take_subset 50 _ hx))
          obtain ⟨es2, count2, logs2, hsplit⟩ :
              ∃ a b c, ingestChunk outcome indexName
                (((d :: ds).take 50).map (fun x => (idOf x, x))) es count logs = (a, b, c) :=
            ⟨_, _, _, rfl⟩
          have hcnt := ingestChunk_count outcome indexName
            (((d :: ds).take 50).map (fun x => (idOf x, x))) es count logs
          have herr := ingestChunk_errlogs outcome indexName
            (((d :: ds).take 50).map (fun x => (idOf x, x))) es count logs
          rw [hsplit] at hcnt herr
          dsimp only at hcnt herr
          have hlen : ((d :: ds).drop 50).length ≤ fuel := by
            have := hf
            simp only [List.length_cons, List.length_drop] at this ⊢
            omega
          obtain ⟨r, hr, hnone, hcount, herrs⟩ :=
            ih ((d :: ds).drop 50) es2 count2 logs2 hlen
              (fun x hx => hids x (List.drop_subset 50 _ hx))
          refine ⟨r, ?_, hnone, ?_, ?_⟩
          · show ingestBulkFuel outcome indexName (fuel + 1) (d :: ds) es count logs
              = Except.ok r
            rw [ingestBulkFuel]
            simp only [hchunk, hsplit]
            exact hr
          · have hcf := filter_snd_map_length outcome ((d :: ds).take 50)
            have hsplit50 : ((d :: ds).filter outcome).length
                = (((d :: ds).take 50).filter outcome).length
                    + (((d :: ds).drop 50).filter outcome).length := by
              conv_lhs => rw [← List.take_append_drop 50 (d :: ds)]
              rw [List.filter_append, List.length_append]
            rw [hcf] at hcnt
            rw [hcount, hcnt, hsplit50]
            omega
          · have hcf := filter_snd_map_length (fun x => !outcome x) ((d :: ds).take 50)
            have hsplit50 : ((d :: ds).filter (fun x => !outcome x)).length
                = (((d :: ds).take 50).filter (fun x => !outcome x)).length
                    + (((d :: ds).drop 50).filter (fun x => !outcome x)).length := by
              conv_lhs => rw [← List.take_append_drop 50 (d :: ds)]
              rw [List.filter_append, List.length_append]
            rw [hcf] at herr
            rw [herrs, herr, hsplit50]
            omega

/-- C6 counterexample.  The claim says the operation returns the
aggregate count of successfully indexed documents.  Ingesting two
documents that both index successfully computes and logs the aggregate
count 2, but the Python function body has no return statement: the
call returns `None`, not the count. -/
theorem c6_counterexample_returns_none_not_count :
    (EntityResolver.ingest_synonym allOk "synonym_store" twoDocs esStore).map
        (fun r => (r.retval, r.count, r.logs.getLast?))
      = Except.ok (none, 2, some ⟨LogLevel.info, "Loaded 2 documents"⟩) ∧
    (none : Option Nat) ≠ some 2 := by
  exact ⟨rfl, by decide⟩

/-- C6 amended.  For every sequence of records pushed to the backend
by `ingest_synonym` (over an existing index, every record carrying an
`id`), a failure to index one document is logged at error level and
excluded from the success count while the batch continues with the
remaining documents; the aggregate count of successfully indexed
documents is computed and logged, and the call returns `None`. -/
theorem c6_amended_partial_failure_semantics
    (outcome : Doc → Bool) (indexName : String) (docs : List Doc) (es : EsState)
    (hex : es.indexExists indexName = true)
    (hids : ∀ d ∈ docs, (Doc.get? d "id").isSome) :
    ∃ r, EntityResolver.ingest_synonym outcome indexName docs es = Except.ok r ∧
      r.retval = none ∧
      r.count = (docs.filter outcome).length ∧
      (r.logs.filter isErrorLog).length = (docs.filter (fun d => !outcome d)).length := by
  obtain ⟨r, hr, h1, h2, h3⟩ :=
    ingestBulkFuel_spec outcome indexName docs.length docs es 0 [] (le_refl _) hids
  refine ⟨r, ?_, h1, by simpa using h2, by simpa using h3⟩
  simp only [EntityResolver.ingest_synonym, hex, if_true, ingestBulk]
  exact hr

/-- C6 witness: two records over the existing `synonym_store` index,
with the backend failing the record whose id is `11`: one success is
counted, one error is logged, and the call returns `None`. -/
theorem c6_witness :
    ∃ r, EntityResolver.ingest_synonym failOn11 "synonym_store" twoDocs esStore
        = Except.ok r ∧
      r.retval = none ∧
      r.count = (twoDocs.filter failOn11).length ∧
      (r.logs.filter isErrorLog).length
        = (twoDocs.filter (fun d => !failOn11 d)).length :=
  c6_amended_partial_failure_semantics failOn11 "synonym_store" twoDocs esStore
    rfl (by decide)

/-- C7.  For every backend response to the fuzzy path of `predict`
(whose `terms` buckets have pairwise distinct keys), the returned list
is the bucket candidates ranked by their top hit's relevance score in
descending order, truncated to at most the default ten entries, with
no duplicate cname, and each entry carries the bucket's cname,
relevance score and hit count. -/
theorem c7_fuzzy_results_ranked_truncated_distinct
    (norm : String → String)
    (search : String → EsSearchBody → Except PyErr (List Bucket))
    (st : ResolverState) (e : Entity) (buckets : List Bucket)
    (hsys : st.isSystemEntity = false)
    (hsearch : search st.esIndexName (fullTextQuery (norm e.text)) = Except.ok buckets)
    (hkeys : (buckets.map Bucket.key).Nodup) :
    ∃ rs, EntityResolver.predict norm search st e false
        = Except.ok (PredictResult.ranked rs, []) ∧
      rs.length ≤ 10 ∧
      rs.Pairwise byScoreDesc ∧
      (rs.map FuzzyResult.cname).Nodup ∧
      ∀ r ∈ rs, ∃ b ∈ buckets, r = ⟨b.key, b.maxScore, b.total⟩ := by
  refine ⟨rankBuckets buckets, ?_, ?_, ?_, ?_, ?_⟩
  · simp [EntityResolver.predict, hsys, hsearch]
  · exact List.length_take_le 10 _
  · have hs := List.sorted_insertionSort byScoreDesc
      (buckets.map (fun b => FuzzyResult.mk b.key b.maxScore b.total))
    exact List.Pairwise.sublist (List.take_sublist 10 _) hs
  · have hperm := List.perm_insertionSort byScoreDesc
      (buckets.map (fun b => FuzzyResult.mk b.key b.maxScore b.total))
    have hnd0 : ((buckets.map (fun b => FuzzyResult.mk b.key b.maxScore b.total)).map
        FuzzyResult.cname).Nodup := by
      rw [List.map_map]
      exact hkeys
    have hnd1 := (List.Perm.nodup_iff (List.Perm.map FuzzyResult.cname hperm)).mpr hnd0
    exact List.Sublist.nodup
      (List.Sublist.map FuzzyResult.cname (List.take_sublist 10 _)) hnd1
  · intro r hr
    have hr2 := List.take_subset 10 _ hr
    have hr3 := (List.perm_insertionSort byScoreDesc _).subset hr2
    obtain ⟨b, hb, hbe⟩ := List.mem_map.mp hr3
    exact ⟨b, hb, hbe.symm⟩

/-- C7 witness: a response of twelve buckets with distinct keys yields
a ranked, duplicate-free list of at most ten candidates. -/
theorem c7_witness :
    ∃ rs, EntityResolver.predict sampleNorm (fun _ _ => Except.ok twelveBuckets) stCity
        ⟨"pike", "city", Val.s "x"⟩ false = Except.ok (PredictResult.ranked rs, []) ∧
      rs.length ≤ 10 ∧
      rs.Pairwise byScoreDesc ∧
      (rs.map FuzzyResult.cname).Nodup ∧
      ∀ r ∈ rs, ∃ b ∈ twelveBuckets, r = ⟨b.key, b.maxScore, b.total⟩ :=
  c7_fuzzy_results_ranked_truncated_distinct sampleNorm
    (fun _ _ => Except.ok twelveBuckets) stCity ⟨"pike", "city", Val.s "x"⟩
    twelveBuckets rfl rfl (by decide)

/-- C8 witness: the two-tier boost layout at a concrete normalized
mention. -/
theorem c8_witness :
    (fullTextQuery "los angeles").query.isDisjunction = true ∧
    (fullTextQuery "los angeles").query.clauses =
      [("whitelist.normalized_keyword", "los angeles", 10),
       ("cname.normalized_keyword", "los angeles", 10),
       ("whitelist", "los angeles", 1),
       ("cname", "los angeles", 1),
       ("cname.char_ngram", "los angeles", 1),
       ("whitelist.char_ngram", "los angeles", 1)] ∧
    (fullTextQuery "los angeles").boostOfField "whitelist.normalized_keyword"
      > (fullTextQuery "los angeles").boostOfField "whitelist.char_ngram" :=
  c8_amended_two_tier_boosts "los angeles"

/-- C10 witness: construction for the entity type `location` raises. -/
theorem c10_witness :
    EntityResolver.init (fun t => t == "sys_time") "location"
      = Except.error (PyErr.attributeError "ES_SYNONYM_INDEX_PREFIX") :=
  c10_init_always_raises_attribute_error (fun t => t == "sys_time") "location"
